import Mathlib

/-!
Shallow embedding of the Rockset cloud storage environment for RocksDB
(`cloud/aws/aws_env.cc`, the S3 readable/writable file implementation, and
`include/rocksdb/cloud/cloud_env_options.h`), together with theorems
checking the natural-language specification against the code.

The object store is modelled as a finite association map from
(bucket, key) to objects, extended with a set of injectable faults so that
remote failures other than "not found" can be exercised.  The local
filesystem is a finite map from path to file contents.  Statuses are the
kinds of `rocksdb::Status` that the code under study produces.
-/

namespace RocksCloud

/-- The status kinds produced by the code under study
(`rocksdb::Status`).  Messages are irrelevant to the claims and omitted. -/
inductive Status where
  | ok
  | notFound
  | ioError
  | invalidArgument
  | notSupported
  | timedOut
  | busy
deriving DecidableEq, Repr

/-- The characters after the last slash of a character list. -/
def basenameData (l : List Char) : List Char :=
  l.foldl (fun acc c => if c = '/' then [] else acc ++ [c]) []

/-- Modelled from the spec: `basename(path)` strips directories (the helper
lives in `cloud/aws/aws_file.h`, which is not among the sources).  We take
the part of the path after the last slash. -/
def basename (p : String) : String :=
  String.mk (basenameData p.data)

/-- Does the leaf name consist of a non-empty numeric id followed by the
given 4-character extension? -/
def numericWithExt (ext : List Char) (b : List Char) : Bool :=
  let stem := b.take (b.length - 4)
  b.drop (b.length - 4) = ext && stem ≠ [] && stem.all Char.isDigit

/-- Modelled from the spec: the SST-name classifier (`IsSstFile` in
`cloud/aws/aws_file.h`, not among the sources).  The spec says an SST name
is the engine's sstable convention: numeric id + extension. -/
def IsSstFile (f : String) : Bool :=
  numericWithExt ".sst".data (basenameData f.data)

/-- Modelled from the spec: the write-ahead-log name classifier
(`IsLogFile` in `cloud/aws/aws_file.h`, not among the sources):
numeric id + ".log" extension. -/
def IsLogFile (f : String) : Bool :=
  numericWithExt ".log".data (basenameData f.data)

/-- Modelled from the spec: the manifest-name classifier (`IsManifestFile`
in `cloud/aws/aws_file.h`, not among the sources): the engine's
manifest-file convention, a leaf name starting with "MANIFEST". -/
def IsManifestFile (f : String) : Bool :=
  "MANIFEST".data.isPrefixOf (basenameData f.data)

/-- Modelled from the spec: the identity-file classifier (`IsIdentityFile`
in `cloud/aws/aws_file.h`, not among the sources): the sentinel
"IDENTITY" leaf name. -/
def IsIdentityFile (f : String) : Bool :=
  basenameData f.data = "IDENTITY".data

/-- Modelled from the spec: the string normalizer `trim`
(`util/string_util.h`, not among the sources) strips surrounding
whitespace; implemented over the character list so that it evaluates. -/
def trimStr (s : String) : String :=
  String.mk (((s.data.dropWhile Char.isWhitespace).reverse.dropWhile
    Char.isWhitespace).reverse)

/-- The four out-parameters of `AwsEnv::GetFileType`.  `none` means the
flag was never assigned by the function (for the two optional pointers it
also models a null pointer, see `GetFileType`). -/
structure FileTypeOut where
  sstFile : Option Bool
  logFile : Option Bool
  manifest : Option Bool
  identity : Option Bool
deriving DecidableEq, Repr

/-- `AwsEnv::GetFileType` (aws_env.cc:363-378).  `manifestPtr` and
`identityPtr` say whether the caller passed a non-null pointer for the
corresponding out-parameter; `sstFile` and `logFile` are always non-null
in the source.  A flag value of `none` in the result means the out
parameter was left unassigned on return. -/
def GetFileType (fname : String) (manifestPtr identityPtr : Bool) : FileTypeOut :=
  -- *logFile = false; if (manifest) *manifest = false;
  let logFile0 : Option Bool := some false
  let manifest0 : Option Bool := if manifestPtr then some false else none
  -- *sstFile = IsSstFile(fname);
  let sst := IsSstFile fname
  if !sst then
    { sstFile := some sst
      logFile := some (IsLogFile fname)
      manifest := if manifestPtr then some (IsManifestFile fname) else none
      identity := if identityPtr then some (IsIdentityFile fname) else none }
  else
    { sstFile := some sst
      logFile := logFile0
      manifest := manifest0
      identity := none }

/-- The sst flag as the router's callers observe it. -/
def routeSst (f : String) : Bool := IsSstFile f

/-- The log flag as the router's callers observe it
(`GetFileType` leaves it false for SST names). -/
def routeLog (f : String) : Bool := !IsSstFile f && IsLogFile f

/-- The manifest flag as the router's callers observe it. -/
def routeManifest (f : String) : Bool := !IsSstFile f && IsManifestFile f

/-- The identity flag as the router's callers observe it.  When the name
is an SST file the source leaves the flag unassigned, but every caller
reads it behind a short-circuiting `sstfile || ...`, so the value is never
observed in that case; `false` is a sound stand-in. -/
def routeIdentity (f : String) : Bool := !IsSstFile f && IsIdentityFile f

/-! ## The object store and the local filesystem -/

/-- An object stored in S3: its body (a string of bytes) and its
user-defined metadata. -/
structure S3Object where
  content : String
  metadata : List (String × String)
deriving DecidableEq, Repr

/-- The modelled S3 service: an association map from (bucket, key) to
objects, plus injectable faults.  A key in `faults` makes any Get, Put,
Head or Delete on it fail with a non-404 error; a (bucket, path) pair in
`listFaults` makes a ListObjects call with that search path fail with a
non-404 error. -/
structure S3State where
  objects : List ((String × String) × S3Object)
  faults : List (String × String)
  listFaults : List (String × String)
deriving DecidableEq, Repr

/-- Look an object up by bucket and key. -/
def S3State.lookup (s : S3State) (b k : String) : Option S3Object :=
  (s.objects.find? (fun p => p.1 = (b, k))).map (·.2)

/-- Insert or overwrite an object (a PUT's effect; the last PUT wins). -/
def S3State.store (s : S3State) (b k : String) (o : S3Object) : S3State :=
  { s with objects := ((b, k), o) :: s.objects.filter (fun p => p.1 ≠ (b, k)) }

/-- Remove an object (a DELETE's effect). -/
def S3State.remove (s : S3State) (b k : String) : S3State :=
  { s with objects := s.objects.filter (fun p => p.1 ≠ (b, k)) }

/-- The requests issued against the object store; kept as a trace so that
theorems can talk about which calls an operation performed. -/
inductive CloudReq where
  | putReq (bucket key : String)
  | getReq (bucket key : String) (rangeFirst rangeLast : Nat)
  | getStreamReq (bucket key : String)
  | headReq (bucket key : String)
  | delReq (bucket key : String)
  | listReq (bucket path : String)
deriving DecidableEq, Repr

/-- A HeadObject call: faults map to IOError, a missing object to
NotFound (the wrapper maps NoSuchBucket/NoSuchKey/ResourceNotFound/404 to
not-found), otherwise the object's info is returned. -/
def headObject (s : S3State) (b k : String) : Except Status S3Object :=
  if (b, k) ∈ s.faults then .error .ioError
  else match s.lookup b k with
    | some o => .ok o
    | none => .error .notFound

/-- A PutObject call: faults map to IOError, otherwise the object is
stored. -/
def putObject (s : S3State) (b k : String) (o : S3Object) : Status × S3State :=
  if (b, k) ∈ s.faults then (.ioError, s)
  else (.ok, s.store b k o)

/-- A DeleteObject call as `AwsEnv::DeletePathInS3` classifies it:
faults map to IOError, a missing object to NotFound, otherwise the object
is removed. -/
def deleteObject (s : S3State) (b k : String) : Status × S3State :=
  if (b, k) ∈ s.faults then (.ioError, s)
  else match s.lookup b k with
    | some _ => (.ok, s.remove b k)
    | none => (.notFound, s)

/-- A ListObjects enumeration with the given search path, as
`AwsEnv::GetChildrenFromS3` consumes it: list faults map to IOError,
otherwise all keys of the bucket that start with the path are returned
(pagination is transparent to the caller). -/
def listChildren (s : S3State) (b path : String) : Status × List String :=
  if (b, path) ∈ s.listFaults then (.ioError, [])
  else (.ok, (s.objects.filter
      (fun p => p.1.1 = b && p.1.2.startsWith path)).map (fun p => p.1.2))

/-- The local filesystem: a map from path to file contents. -/
def LocalFS : Type := List (String × String)

instance : DecidableEq LocalFS := by unfold LocalFS; infer_instance

/-- Look a local file up by path. -/
def LocalFS.fileAt (fs : LocalFS) (p : String) : Option String :=
  ((List.find? (fun q => q.1 = p)) fs).map (·.2)

/-- Create or overwrite a local file. -/
def LocalFS.writeFile (fs : LocalFS) (p c : String) : LocalFS :=
  (p, c) :: List.filter (fun q => q.1 ≠ p) fs

/-- Delete a local file. -/
def LocalFS.removeFile (fs : LocalFS) (p : String) : LocalFS :=
  List.filter (fun q => q.1 ≠ p) fs

/-- The base (posix) env's rename: fails when the source is absent,
otherwise moves the contents. -/
def LocalFS.renameLocal (fs : LocalFS) (src dst : String) : Status × LocalFS :=
  match fs.fileAt src with
  | some c => (.ok, (fs.removeFile src).writeFile dst c)
  | none => (.ioError, fs)

/-! ## S3ReadableFile -/

/-- The state of an `S3ReadableFile`: bucket, key, the size learned from
the construction-time Head probe, the sequential read cursor, and the
stored construction status. -/
structure S3ReadableFile where
  bucket : String
  key : String
  fileSize : Nat
  cursor : Nat
  status : Status
deriving DecidableEq, Repr

/-- `S3ReadableFile::S3ReadableFile` + `GetFileInfo`: construction issues
a Head to populate the file size; a failure is captured in the stored
status. -/
def openS3ReadableFile (s : S3State) (b k : String) : S3ReadableFile :=
  match headObject s b k with
  | .ok o => ⟨b, k, o.content.length, 0, .ok⟩
  | .error e => ⟨b, k, 0, 0, e⟩

/-- The result of a read: status, the bytes of the returned slice, and
the trace of S3 requests issued. -/
structure ReadResult where
  status : Status
  slice : String
  reqs : List CloudReq
deriving DecidableEq, Repr

/-- `S3ReadableFile::Read(offset, n, ...)` (random access): returns the
stored status if construction failed; returns empty success when
`offset ≥ file_size`; clamps `n` to `file_size - offset`; issues an
inclusive range request of `max n 1` bytes and reads back at most `n` of
them. -/
def S3ReadableFile.readRandom (f : S3ReadableFile) (s : S3State)
    (off n : Nat) : ReadResult :=
  if f.status ≠ .ok then ⟨f.status, "", []⟩
  else if off ≥ f.fileSize then ⟨.ok, "", []⟩
  else
    -- trim size if needed (the source reassigns n; here the clamped value
    -- is the fresh binder n2)
    let n2 := if off + n > f.fileSize then f.fileSize - off else n
    -- ranges are inclusive, so a zero-length range cannot be expressed:
    -- read one byte instead and drop it
    let rangeLen := if n2 ≠ 0 then n2 else 1
    let req := CloudReq.getReq f.bucket f.key off (off + rangeLen - 1)
    if (f.bucket, f.key) ∈ s.faults then ⟨.ioError, "", [req]⟩
    else match s.lookup f.bucket f.key with
      | none => ⟨.notFound, "", [req]⟩
      | some o =>
        -- the response body holds the requested range, clamped to the
        -- object's end; body.read(scratch, n) is skipped when n == 0
        let body := (o.content.data.drop off).take rangeLen
        let bytes := if n2 ≠ 0 then String.mk (body.take n2) else ""
        ⟨.ok, bytes, [req]⟩

/-- `S3ReadableFile::Read(n, ...)` (sequential): delegates to the random
read at the cursor and, on success, advances the cursor by the number of
bytes returned. -/
def S3ReadableFile.readSeq (f : S3ReadableFile) (s : S3State) (n : Nat) :
    ReadResult × S3ReadableFile :=
  let r := f.readRandom s f.cursor n
  if r.status = .ok then (r, { f with cursor := f.cursor + r.slice.length })
  else (r, f)

/-! ## S3WritableFile: uploads, downloads, and the manifest cadence -/

/-- The result of an operation that can touch both tiers: status, the new
local filesystem, the new object store, and the trace of S3 requests. -/
structure OpResult where
  status : Status
  fs : LocalFS
  s3 : S3State
  reqs : List CloudReq
deriving DecidableEq

/-- `S3WritableFile::CopyToS3`: measures the local file's size (a failed
GetFileSize leaves the size 0), refuses to upload a zero size file with
IOError and no PUT, otherwise PUTs the entire local contents to the given
bucket and key. -/
def CopyToS3 (fs : LocalFS) (s3 : S3State) (fname bucket key : String) :
    OpResult :=
  let fsize := ((fs.fileAt fname).getD "").length
  if fsize = 0 then ⟨.ioError, fs, s3, []⟩
  else
    let content := (fs.fileAt fname).getD ""
    let (st, s3') := putObject s3 bucket key ⟨content, []⟩
    ⟨st, fs, s3', [.putReq bucket key]⟩

/-- `S3WritableFile::CopyFromS3`: GETs the object, streaming the body
into `<destination>.tmp`; refuses a zero-size download with IOError and
no rename; otherwise renames the temp file into place.  Any GET failure,
including 404, is surfaced as IOError. -/
def CopyFromS3 (fs : LocalFS) (s3 : S3State)
    (bucket srcObject destPathname : String) : OpResult :=
  let tmp := destPathname ++ ".tmp"
  let req := CloudReq.getStreamReq bucket srcObject
  if (bucket, srcObject) ∈ s3.faults then ⟨.ioError, fs, s3, [req]⟩
  else match s3.lookup bucket srcObject with
    | none => ⟨.ioError, fs, s3, [req]⟩
    | some o =>
      -- the response stream factory wrote the body to the temp file
      let fs1 := fs.writeFile tmp o.content
      if o.content.length = 0 then ⟨.ioError, fs1, s3, [req]⟩
      else
        let (st, fs2) := fs1.renameLocal tmp destPathname
        ⟨st, fs2, s3, [req]⟩

/-- The cloud statistics sink: the NUMBER_MANIFEST_WRITES ticker and the
values recorded against MANIFEST_WRITES_TIME. -/
structure CloudStats where
  numberManifestWrites : Nat
  manifestWritesTime : List Nat
deriving DecidableEq, Repr

/-- The state of an `S3WritableFile`: the local file name, the
destination bucket and key, whether this is a manifest, the configured
periodicity, the microsecond instant of the last successful manifest
upload, whether the local temp handle is still open, and the stored
status. -/
structure S3WritableFile where
  fname : String
  bucket : String
  key : String
  isManifest : Bool
  periodicityMillis : Nat
  manifestLastSyncTime : Nat
  tempFileOpen : Bool
  status : Status
deriving DecidableEq, Repr

/-- The result of a writable-file operation: status, the new file state,
the new filesystem and object store, the new statistics, and the request
trace. -/
structure WfResult where
  status : Status
  wf : S3WritableFile
  fs : LocalFS
  s3 : S3State
  stats : CloudStats
  reqs : List CloudReq
deriving DecidableEq

/-- `S3WritableFile::CopyManifestToS3(size_hint, force)`: with `now` the
current microsecond clock and `slotMicros` the latency the client
wrapper's per-thread result slot holds after the upload, uploads iff the
file is a manifest and (`force` or
`manifest_last_sync_time_ + 1000 * manifest_durable_periodicity_millis_ < now`);
on a successful upload sets `manifest_last_sync_time_ = now` and, when a
statistics sink is configured (`hasStats`), ticks NUMBER_MANIFEST_WRITES
by 1 and records `slotMicros / 1000` against MANIFEST_WRITES_TIME. -/
def S3WritableFile.copyManifestToS3 (w : S3WritableFile) (fs : LocalFS)
    (s3 : S3State) (stats : CloudStats) (hasStats : Bool)
    (now slotMicros : Nat) (force : Bool) : WfResult :=
  if w.isManifest &&
      (force || decide (w.manifestLastSyncTime + 1000 * w.periodicityMillis < now)) then
    let r := CopyToS3 fs s3 w.fname w.bucket w.key
    if r.status = .ok then
      let stats' := if hasStats then
          { numberManifestWrites := stats.numberManifestWrites + 1
            manifestWritesTime := stats.manifestWritesTime ++ [slotMicros / 1000] }
        else stats
      ⟨.ok, { w with manifestLastSyncTime := now }, r.fs, r.s3, stats', r.reqs⟩
    else ⟨r.status, w, r.fs, r.s3, stats, r.reqs⟩
  else ⟨.ok, w, fs, s3, stats, []⟩

/-- `S3WritableFile::Sync`: returns the stored status when the handle is
already closed; otherwise syncs the local handle (modelled as always
succeeding) and, for a manifest, conditionally uploads per the cadence
rule (with `force = false`). -/
def S3WritableFile.sync (w : S3WritableFile) (fs : LocalFS) (s3 : S3State)
    (stats : CloudStats) (hasStats : Bool) (now slotMicros : Nat) : WfResult :=
  if !w.tempFileOpen then ⟨w.status, w, fs, s3, stats, []⟩
  else if w.isManifest then
    w.copyManifestToS3 fs s3 stats hasStats now slotMicros false
  else ⟨.ok, w, fs, s3, stats, []⟩

/-- `S3WritableFile::Close`: returns the stored status when already
closed; otherwise closes the local handle, measures the local size (a
missing local file fails), then for a manifest force-uploads
(`CopyManifestToS3(size, true)`) keeping the local manifest, and for an
SST uploads and then deletes the local temp file unless
`keep_local_sst_files` is set. -/
def S3WritableFile.close (w : S3WritableFile) (fs : LocalFS) (s3 : S3State)
    (stats : CloudStats) (hasStats : Bool) (now slotMicros : Nat)
    (keepLocalSstFiles : Bool) : WfResult :=
  if !w.tempFileOpen then ⟨w.status, w, fs, s3, stats, []⟩
  else
    let w := { w with tempFileOpen := false }
    match fs.fileAt w.fname with
    | none => ⟨.ioError, w, fs, s3, stats, []⟩  -- GetFileSize on the local file failed
    | some _ =>
      if w.isManifest then
        w.copyManifestToS3 fs s3 stats hasStats now slotMicros true
      else
        let r := CopyToS3 fs s3 w.fname w.bucket w.key
        if r.status ≠ .ok then ⟨r.status, w, r.fs, r.s3, stats, r.reqs⟩
        else if !keepLocalSstFiles then
          ⟨.ok, w, r.fs.removeFile w.fname, r.s3, stats, r.reqs⟩
        else ⟨.ok, w, r.fs, r.s3, stats, r.reqs⟩

/-! ## The AwsEnv: configuration, construction, and the operation router -/

/-- Modelled from the spec: `GetBucket` (`cloud/aws/aws_file.h`, not among
the sources) maps a bucket prefix to the bucket's name; the mapping is
injective and otherwise immaterial to the claims, so it is modelled as the
identity. -/
def GetBucket (bucketPfx : String) : String := bucketPfx

/-- The `CloudEnvOptions` fields the claims exercise
(`include/rocksdb/cloud/cloud_env_options.h`).  `hasStats` says whether a
`cloud_statistics` sink is configured. -/
structure CloudEnvOpts where
  keepLocalSstFiles : Bool
  keepLocalLogFiles : Bool
  manifestDurablePeriodicityMillis : Nat
  hasStats : Bool
deriving DecidableEq, Repr

/-- The environment state after `AwsEnv::AwsEnv`: the six (trimmed)
bucket-binding strings (`src_bucket_prefix_` .. `dest_bucket_region_`),
the options, the three derived booleans, and `create_bucket_status_`. -/
structure AwsEnvModel where
  srcBucket : String
  srcObjectPath : String
  srcRegion : String
  destBucket : String
  destObjectPath : String
  destRegion : String
  opts : CloudEnvOpts
  hasSrcBucket : Bool
  hasDestBucket : Bool
  hasTwoUniqueBuckets : Bool
  createBucketStatus : Status
deriving DecidableEq, Repr

/-- `AwsEnv::srcname`: the configured src object path + "/" + basename. -/
def AwsEnvModel.srcname (e : AwsEnvModel) (localname : String) : String :=
  e.srcObjectPath ++ "/" ++ basename localname

/-- `AwsEnv::destname`: the configured dest object path + "/" + basename. -/
def AwsEnvModel.destname (e : AwsEnvModel) (localname : String) : String :=
  e.destObjectPath ++ "/" ++ basename localname

/-- `AwsEnv::status` (aws_env.cc:346): every operation's entry assertion
reads this stored status. -/
def AwsEnvModel.statusOf (e : AwsEnvModel) : Status := e.createBucketStatus

/-- `AwsEnv::AwsEnv` (aws_env.cc:116-304), the initialization logic:
trims the six binding strings, derives `has_src_bucket_`,
`has_dest_bucket_` and `has_two_unique_buckets_`, and rejects two unique
buckets in different regions with a persistent InvalidArgument before any
network call.  `createBucketOutcome` stands for the result of the
`CreateBucketInS3` call on the destination bucket, and `kinesisOutcome`
for the streaming-log setup performed when `keep_local_log_files` is
false; both are network effects outside the model. -/
def mkAwsEnv (sBucket sObj sRegion dBucket dObj dRegion : String)
    (opts : CloudEnvOpts) (createBucketOutcome kinesisOutcome : Status) :
    AwsEnvModel :=
  let sBucket := trimStr sBucket
  let sObj := trimStr sObj
  let sRegion := trimStr sRegion
  let dBucket := trimStr dBucket
  let dObj := trimStr dObj
  let dRegion := trimStr dRegion
  let hasSrc := sBucket ≠ ""
  let hasDest := dBucket ≠ ""
  let twoUnique := hasSrc && hasDest && (sBucket ≠ dBucket || sObj ≠ dObj)
  if twoUnique && sRegion ≠ dRegion then
    { srcBucket := sBucket, srcObjectPath := sObj, srcRegion := sRegion
      destBucket := dBucket, destObjectPath := dObj, destRegion := dRegion
      opts := opts, hasSrcBucket := hasSrc, hasDestBucket := hasDest
      hasTwoUniqueBuckets := twoUnique
      createBucketStatus := .invalidArgument }
  else
    let st := if hasDest then createBucketOutcome else .ok
    let st := if st = .ok && !opts.keepLocalLogFiles then kinesisOutcome else st
    { srcBucket := sBucket, srcObjectPath := sObj, srcRegion := sRegion
      destBucket := dBucket, destObjectPath := dObj, destRegion := dRegion
      opts := opts, hasSrcBucket := hasSrc, hasDestBucket := hasDest
      hasTwoUniqueBuckets := twoUnique
      createBucketStatus := st }

/-- `AwsEnv::NewSequentialFile` for SST/MANIFEST/IDENTITY names: try the
local env, then a dest readable-object file, then a src one; for LOG
names with `keep_local_log_files = false` the streaming-log cache path is
consulted (its outcome, `kinesisOutcome`, is an external capability);
everything else goes to the local env.  Only the resulting status is
modelled (the operation does not mutate either tier). -/
def newSequentialFile (e : AwsEnvModel) (fs : LocalFS) (s3 : S3State)
    (fname : String) (kinesisOutcome : Status) : Status :=
  if routeSst fname || routeManifest fname || routeIdentity fname then
    let st := if (fs.fileAt fname).isSome then Status.ok else Status.notFound
    if st = .ok then st
    else
      let st := if e.hasDestBucket then
          (openS3ReadableFile s3 (GetBucket e.destBucket) (e.destname fname)).status
        else st
      if st ≠ .ok && e.hasSrcBucket then
        (openS3ReadableFile s3 (GetBucket e.srcBucket) (e.srcname fname)).status
      else st
  else if routeLog fname && !e.opts.keepLocalLogFiles then kinesisOutcome
  else if (fs.fileAt fname).isSome then .ok else .notFound

/-- `AwsEnv::NewRandomAccessFile` for SST/MANIFEST/IDENTITY names: try
the local env; on a local miss, when `keep_local_sst_files` is set, copy
the object from dest then src into the local name and reopen locally;
if still unopened, open a readable-object file against dest then src.
Returns the status and the local filesystem (which the copies mutate). -/
def newRandomAccessFile (e : AwsEnvModel) (fs : LocalFS) (s3 : S3State)
    (fname : String) (kinesisOutcome : Status) : Status × LocalFS :=
  if routeSst fname || routeManifest fname || routeIdentity fname then
    let st := if (fs.fileAt fname).isSome then Status.ok else Status.notFound
    if st = .ok then (st, fs)
    else
      -- (the "local open failed but the file exists" early return cannot
      -- trigger in the model, where a local open fails only by absence)
      let (st, fs) :=
        if e.opts.keepLocalSstFiles then
          let r1 := if e.hasDestBucket then
              CopyFromS3 fs s3 (GetBucket e.destBucket) (e.destname fname) fname
            else ⟨st, fs, s3, []⟩
          let r2 := if r1.status ≠ .ok && e.hasSrcBucket then
              CopyFromS3 r1.fs s3 (GetBucket e.srcBucket) (e.srcname fname) fname
            else r1
          if r2.status = .ok then
            -- we successfully copied the file, try opening it locally now
            (if (r2.fs.fileAt fname).isSome then Status.ok else Status.notFound, r2.fs)
          else (r2.status, r2.fs)
        else (st, fs)
      if st ≠ .ok then
        let st := if e.hasDestBucket then
            (openS3ReadableFile s3 (GetBucket e.destBucket) (e.destname fname)).status
          else st
        let st := if st ≠ .ok && e.hasSrcBucket then
            (openS3ReadableFile s3 (GetBucket e.srcBucket) (e.srcname fname)).status
          else st
        (st, fs)
      else (st, fs)
  else if routeLog fname && !e.opts.keepLocalLogFiles then (kinesisOutcome, fs)
  else if (fs.fileAt fname).isSome then (.ok, fs) else (.notFound, fs)

/-! ## Dbid registry -/

/-- Modelled from the spec: the dbid registry key root `dbid_registry_`
(initialized in `cloud/aws/aws_env.h`, not among the sources); the spec
gives the key as `".rockset/dbid/" + dbid`. -/
def dbidRegistry : String := ".rockset/dbid/"

/-- `AwsEnv::SaveDbid`: PUT an empty object at `.rockset/dbid/<dbid>` in
the destination bucket carrying the metadata `dirname → <dirname>`. -/
def saveDbid (e : AwsEnvModel) (s3 : S3State) (dbid dirname : String) :
    Status × S3State :=
  let key := dbidRegistry ++ dbid
  putObject s3 (GetBucket e.destBucket) key ⟨"", [("dirname", dirname)]⟩

/-- `AwsEnv::GetPathForDbid`: HEAD the registry key and read the
`dirname` metadata; a missing object (or a missing metadata entry) is
NotFound. -/
def getPathForDbid (s3 : S3State) (bucketPfx dbid : String) :
    Status × Option String :=
  let key := dbidRegistry ++ dbid
  match headObject s3 (GetBucket bucketPfx) key with
  | .error st => (st, none)
  | .ok o =>
    match (o.metadata.find? (fun kv => kv.1 = "dirname")).map (·.2) with
    | some d => (.ok, some d)
    | none => (.notFound, none)

/-- `AwsEnv::DeleteDbid`: DELETE the registry key. -/
def deleteDbid (s3 : S3State) (bucketPfx dbid : String) : Status × S3State :=
  deleteObject s3 (GetBucket bucketPfx) (dbidRegistry ++ dbid)

/-! ## Rename and the identity file -/

/-- `AwsEnv::SaveIdentitytoS3`: reads the local identity file into a
string, trims it into the dbid, uploads the file to the given destination
key, and, when the destination object path is nonempty, saves the
dbid → path mapping in the registry. -/
def saveIdentityToS3 (e : AwsEnvModel) (fs : LocalFS) (s3 : S3State)
    (localfile idfileKey : String) : Status × S3State :=
  match fs.fileAt localfile with
  | none => (.ioError, s3)  -- ReadFileIntoString failed
  | some content =>
    let dbid := trimStr content
    let r := CopyToS3 fs s3 localfile (GetBucket e.destBucket) idfileKey
    if r.status = .ok && e.destObjectPath ≠ "" then
      saveDbid e r.s3 dbid e.destObjectPath
    else (r.status, r.s3)

/-- `AwsEnv::RenameFile`: NotSupported for SST, LOG and MANIFEST targets;
for an IDENTITY target with a destination bucket, upload the identity to
dest (updating the registry) and only then rename locally; every other
name (including IDENTITY without a dest bucket) is renamed purely
locally. -/
def renameFile (e : AwsEnvModel) (fs : LocalFS) (s3 : S3State)
    (src target : String) : Status × LocalFS × S3State :=
  if routeSst target then (.notSupported, fs, s3)
  else if routeLog target then (.notSupported, fs, s3)
  else if routeManifest target then (.notSupported, fs, s3)
  else if !routeIdentity target || !e.hasDestBucket then
    let r := fs.renameLocal src target
    (r.1, r.2, s3)
  else
    let si := saveIdentityToS3 e fs s3 src (e.destname target)
    if si.1 = .ok then
      let r := fs.renameLocal src target
      (r.1, r.2, si.2)
    else (si.1, fs, si.2)

/-! ## DeleteDir -/

/-- `AwsEnv::DeleteDir` (aws_env.cc:1063-1096), exactly as the source
branches: with a destination bucket, list the children under
`destname(dirname)`; when the listing is OK *and* non-empty, refuse with
IOError; OTHERWISE (including when the listing itself failed) delete the
directory marker from S3; finally, when that delete succeeded, delete the
local directory (modelled as a local entry). -/
def deleteDir (e : AwsEnvModel) (fs : LocalFS) (s3 : S3State)
    (dirname : String) : Status × LocalFS × S3State :=
  if e.hasDestBucket then
    let lst := listChildren s3 (GetBucket e.destBucket) (e.destname dirname)
    if lst.1 = .ok && lst.2 ≠ [] then (.ioError, fs, s3)
    else
      let del := deleteObject s3 (GetBucket e.destBucket) (e.destname dirname)
      if del.1 = .ok then (.ok, fs.removeFile dirname, del.2)
      else (del.1, fs, del.2)
  else (.ok, fs.removeFile dirname, s3)

/-! ## The background deletion scheduler -/

/-- An entry of `files_to_delete_`: the steady-clock enqueue instant and
the local file name. -/
structure DelEntry where
  enq : Nat
  name : String
deriving DecidableEq, Repr

/-- Whether the shutdown signal (`running_ = false` at instant `sd`)
is observed by a wait that ends at instant `t`. -/
def shutdownBefore (shutdown : Option Nat) (t : Nat) : Bool :=
  match shutdown with
  | some sd => sd ≤ t
  | none => false

/-- The file-deletion worker loop (the `file_deletion_thread_` lambda,
aws_env.cc:273-303) run over a queue snapshot: pop the head entry, sleep
until `enqueue_instant + file_deletion_delay` unless shutdown is
signalled first (in which case exit immediately, draining nothing),
delete `destname(name)` from the destination bucket ignoring a NotFound
result, and continue with the next entry.  Returns the trace of performed
deletions `(instant, name, delete status)` and the final object store. -/
def runDeletionWorker (e : AwsEnvModel) (shutdown : Option Nat) (delay : Nat) :
    List DelEntry → Nat → S3State → List (Nat × String × Status) × S3State
  | [], _, s3 => ([], s3)
  | entry :: rest, now, s3 =>
    let wake := max now (entry.enq + delay)
    if shutdownBefore shutdown wake then ([], s3)
    else
      let del := deleteObject s3 (GetBucket e.destBucket) (e.destname entry.name)
      let resume := runDeletionWorker e shutdown delay rest wake del.2
      ((wake, entry.name, del.1) :: resume.1, resume.2)

/-! ## Association-map helper lemmas -/

theorem find?_ext {α : Type} (l : List α) (f g : α → Bool)
    (h : ∀ a, f a = g a) : l.find? f = l.find? g := by
  rw [funext h]

theorem find?_filter_of_ne {α β : Type} [DecidableEq α] (l : List (α × β))
    (p q : α) (h : p ≠ q) :
    ((l.filter fun e => e.1 ≠ q).find? fun e => e.1 = p) =
      l.find? fun e => e.1 = p := by
  rw [List.find?_filter]
  apply find?_ext
  intro a
  by_cases hp : a.1 = p
  · have haq : a.1 ≠ q := fun hh => h (hp ▸ hh)
    simp [hp, haq, h]
  · simp [hp]

theorem find?_filter_self {α β : Type} [DecidableEq α] (l : List (α × β))
    (q : α) :
    ((l.filter fun e => e.1 ≠ q).find? fun e => e.1 = q) = none := by
  rw [List.find?_filter, List.find?_eq_none]
  intro a _
  by_cases ha : a.1 = q <;> simp [ha]

theorem fileAt_writeFile_self (fs : LocalFS) (p c : String) :
    (fs.writeFile p c).fileAt p = some c := by
  unfold LocalFS.writeFile LocalFS.fileAt
  rw [List.find?_cons_of_pos]
  · rfl
  · simp

theorem fileAt_writeFile_ne (fs : LocalFS) (p q c : String) (h : p ≠ q) :
    (fs.writeFile q c).fileAt p = fs.fileAt p := by
  unfold LocalFS.writeFile LocalFS.fileAt
  rw [List.find?_cons_of_neg, find?_filter_of_ne fs p q h]
  simp only [decide_eq_true_eq]
  exact fun hh => h hh.symm

theorem fileAt_removeFile_self (fs : LocalFS) (p : String) :
    (fs.removeFile p).fileAt p = none := by
  unfold LocalFS.removeFile LocalFS.fileAt
  rw [find?_filter_self fs p]
  rfl

theorem fileAt_removeFile_ne (fs : LocalFS) (p q : String) (h : p ≠ q) :
    (fs.removeFile q).fileAt p = fs.fileAt p := by
  unfold LocalFS.removeFile LocalFS.fileAt
  rw [find?_filter_of_ne fs p q h]

theorem lookup_store_self (s : S3State) (b k : String) (o : S3Object) :
    (s.store b k o).lookup b k = some o := by
  unfold S3State.store S3State.lookup
  rw [List.find?_cons_of_pos]
  · rfl
  · simp

theorem lookup_store_ne (s : S3State) (b k b' k' : String) (o : S3Object)
    (h : (b, k) ≠ (b', k')) :
    (s.store b' k' o).lookup b k = s.lookup b k := by
  unfold S3State.store S3State.lookup
  rw [List.find?_cons_of_neg, find?_filter_of_ne s.objects (b, k) (b', k') h]
  simp only [decide_eq_true_eq]
  exact fun hh => h hh.symm

theorem lookup_remove_self (s : S3State) (b k : String) :
    (s.remove b k).lookup b k = none := by
  unfold S3State.remove S3State.lookup
  rw [find?_filter_self s.objects (b, k)]
  rfl

theorem lookup_remove_ne (s : S3State) (b k b' k' : String)
    (h : (b, k) ≠ (b', k')) :
    (s.remove b' k').lookup b k = s.lookup b k := by
  unfold S3State.remove S3State.lookup
  rw [find?_filter_of_ne s.objects (b, k) (b', k') h]

theorem append_tmp_ne (s : String) : s ++ ".tmp" ≠ s := by
  intro h
  have hlen := congrArg String.length h
  rw [String.length_append] at hlen
  have h4 : (".tmp" : String).length = 4 := rfl
  omega

/-! ## Claim theorems -/

/-- C10 counterexample: `GetFileType` on the SST name `"000123.sst"` with
a non-null identity pointer returns with the identity out-parameter never
assigned, refuting the claim that every non-null output flag is assigned
before returning. -/
theorem c10_counterexample :
    (GetFileType "000123.sst" true true).identity = none := by decide

/-- C10 (amended): `GetFileType` always assigns `sstFile` and `logFile`;
it assigns `manifest` whenever that pointer is non-null; and it assigns
`identity` whenever that pointer is non-null AND the name is not an SST
file (for an SST name the identity flag is left unassigned; callers are
unaffected only because they read it behind a short-circuiting
`sstfile || ...`). -/
theorem c10_getFileType_assigns (fname : String)
    (manifestPtr identityPtr : Bool) :
    ((GetFileType fname manifestPtr identityPtr).sstFile).isSome ∧
    ((GetFileType fname manifestPtr identityPtr).logFile).isSome ∧
    (manifestPtr = true →
      ((GetFileType fname manifestPtr identityPtr).manifest).isSome) ∧
    (identityPtr = true → IsSstFile fname = false →
      ((GetFileType fname manifestPtr identityPtr).identity).isSome) := by
  unfold GetFileType
  by_cases h : IsSstFile fname <;> simp [h]

/-- C10 witness: the amended theorem applied at a concrete non-SST name
with both optional pointers non-null. -/
theorem c10_witness :
    IsSstFile "MANIFEST-000007" = false ∧
    ((GetFileType "MANIFEST-000007" true true).identity).isSome :=
  ⟨by decide,
   (c10_getFileType_assigns "MANIFEST-000007" true true).2.2.2 rfl (by decide)⟩

theorem strLength_mk (l : List Char) : (String.mk l).length = l.length := rfl

theorem strMk_nil : String.mk [] = "" := rfl

theorem readRandom_big_offset (f : S3ReadableFile) (s3 : S3State)
    (off n : Nat) (hok : f.status = .ok) (hge : off ≥ f.fileSize) :
    f.readRandom s3 off n = ⟨.ok, "", []⟩ := by
  unfold S3ReadableFile.readRandom
  rw [if_neg (by simp [hok]), if_pos hge]

theorem readRandom_spec (s3 : S3State) (b k : String) (o : S3Object)
    (off n : Nat) (hobj : s3.lookup b k = some o)
    (hnf : (b, k) ∉ s3.faults) (hlt : off < o.content.length) :
    S3ReadableFile.readRandom ⟨b, k, o.content.length, 0, .ok⟩ s3 off n =
      ⟨.ok, String.mk ((o.content.data.drop off).take (min n (o.content.length - off))),
        [.getReq b k off (off + (if min n (o.content.length - off) = 0 then 1
          else min n (o.content.length - off)) - 1)]⟩ := by
  unfold S3ReadableFile.readRandom
  rw [if_neg (by simp), if_neg (by show ¬ off ≥ o.content.length; omega)]
  have hno : ¬ (o.content.length < off) := by omega
  by_cases hbig : off + n > o.content.length
  · have hz : ¬ (o.content.length - off = 0) := by omega
    have hmin : min n (o.content.length - off) = o.content.length - off := by omega
    simp [hbig, hz, hnf, hobj, hmin, hno, List.take_take]
  · have hmin : min n (o.content.length - off) = n := by omega
    by_cases hn : n = 0
    · simp [hbig, hn, hnf, hobj, strMk_nil, hno]
    · simp [hbig, hn, hnf, hobj, hmin, hno, List.take_take]

/-- C8: for a successfully opened readable-object file, the random-access
`Read(offset, n)` clamps `n` to `file_size - offset`; whenever
`offset ≥ file_size` it returns an empty slice with success (and no
request); when `n = 0` it issues a range request for one byte
(`bytes=offset-offset`) but still returns an empty slice; and the
sequential `Read(n)` advances the read cursor by exactly the number of
bytes returned. -/
theorem c8_readable_reads (s3 : S3State) (b k : String) (o : S3Object)
    (f : S3ReadableFile) (hobj : s3.lookup b k = some o)
    (hnf : (b, k) ∉ s3.faults) (hf : f = openS3ReadableFile s3 b k)
    (off n m : Nat) :
    f.status = .ok ∧
    (off ≥ f.fileSize → f.readRandom s3 off n = ⟨.ok, "", []⟩) ∧
    (off < f.fileSize →
      (f.readRandom s3 off n).status = .ok ∧
      ((f.readRandom s3 off n).slice).length = min n (f.fileSize - off)) ∧
    (off < f.fileSize →
      f.readRandom s3 off 0 = ⟨.ok, "", [.getReq b k off off]⟩) ∧
    ((f.readSeq s3 m).2.cursor = f.cursor + ((f.readSeq s3 m).1.slice).length) := by
  have hdata : o.content.data.length = o.content.length := rfl
  have hfval : f = ⟨b, k, o.content.length, 0, .ok⟩ := by
    rw [hf]
    simp [openS3ReadableFile, headObject, hnf, hobj]
  subst hfval
  refine ⟨rfl, ?_, ?_, ?_, ?_⟩
  · intro hge
    exact readRandom_big_offset _ s3 off n rfl hge
  · intro hlt
    rw [readRandom_spec s3 b k o off n hobj hnf hlt]
    refine ⟨rfl, ?_⟩
    simp only [strLength_mk, List.length_take, List.length_drop, hdata]
    omega
  · intro hlt
    rw [readRandom_spec s3 b k o off 0 hobj hnf hlt]
    simp [strMk_nil]
  · have hcur : (⟨b, k, o.content.length, 0, .ok⟩ : S3ReadableFile).cursor = 0 := rfl
    unfold S3ReadableFile.readSeq
    rw [hcur]
    by_cases hz : o.content.length = 0
    · rw [readRandom_big_offset _ s3 0 m rfl
        (by show (0 : Nat) ≥ o.content.length; omega)]
      simp
    · rw [readRandom_spec s3 b k o 0 m hobj hnf (by omega)]
      simp

/-- C8 witness: the theorem applied to a six-byte object; the `n = 0`
probe issues the one-byte range request `bytes=2-2` and returns an empty
slice, and a sequential read of 4 bytes moves the cursor to 4. -/
theorem c8_witness :
    (S3State.lookup ⟨[(("bkt", "db/000001.sst"), ⟨"abcdef", []⟩)], [], []⟩
        "bkt" "db/000001.sst" = some ⟨"abcdef", []⟩) ∧
    ((openS3ReadableFile ⟨[(("bkt", "db/000001.sst"), ⟨"abcdef", []⟩)], [], []⟩
        "bkt" "db/000001.sst").readRandom
        ⟨[(("bkt", "db/000001.sst"), ⟨"abcdef", []⟩)], [], []⟩ 2 0
      = ⟨.ok, "", [.getReq "bkt" "db/000001.sst" 2 2]⟩) ∧
    (((openS3ReadableFile ⟨[(("bkt", "db/000001.sst"), ⟨"abcdef", []⟩)], [], []⟩
        "bkt" "db/000001.sst").readSeq
        ⟨[(("bkt", "db/000001.sst"), ⟨"abcdef", []⟩)], [], []⟩ 4).2.cursor = 4) := by
  have h := c8_readable_reads
    ⟨[(("bkt", "db/000001.sst"), ⟨"abcdef", []⟩)], [], []⟩
    "bkt" "db/000001.sst" ⟨"abcdef", []⟩
    (openS3ReadableFile ⟨[(("bkt", "db/000001.sst"), ⟨"abcdef", []⟩)], [], []⟩
      "bkt" "db/000001.sst")
    (by decide) (by decide) rfl 2 0 4
  refine ⟨by decide, ?_, ?_⟩
  · exact h.2.2.2.1 (by decide)
  · have := h.2.2.2.2
    rw [this]
    decide

theorem strLength_eq_zero (s : String) : s.length = 0 ↔ s = "" := by
  constructor
  · intro h
    cases s with
    | mk data =>
      cases data with
      | nil => rfl
      | cons a t => simp [strLength_mk] at h
  · intro h
    rw [h]
    rfl

/-- C3: `CopyToS3` on a zero-length (or unreadable) local file returns
IOError without issuing a PUT and without touching either tier, and
`CopyFromS3` of a zero-length remote object returns IOError, leaves the
entry at the destination path untouched, and issues only the one GET. -/
theorem c3_zero_byte_refusal (fs : LocalFS) (s3 : S3State)
    (fname b k destPath : String) (o : S3Object)
    (hzl : ((fs.fileAt fname).getD "") = "")
    (hobj : s3.lookup b k = some o) (hzc : o.content = "")
    (hnf : (b, k) ∉ s3.faults) :
    CopyToS3 fs s3 fname b k = ⟨.ioError, fs, s3, []⟩ ∧
    (CopyFromS3 fs s3 b k destPath).status = .ioError ∧
    ((CopyFromS3 fs s3 b k destPath).fs).fileAt destPath = fs.fileAt destPath ∧
    (CopyFromS3 fs s3 b k destPath).reqs = [.getStreamReq b k] := by
  have hne : destPath ≠ destPath ++ ".tmp" := (append_tmp_ne destPath).symm
  refine ⟨?_, ?_⟩
  · unfold CopyToS3
    rw [hzl]
    rfl
  · unfold CopyFromS3
    rw [if_neg hnf, hobj]
    simp [hzc, fileAt_writeFile_ne fs destPath (destPath ++ ".tmp") "" hne]

/-- C3 witness: the theorem applied to an empty local file and an empty
remote object. -/
theorem c3_witness :
    ((LocalFS.fileAt [("000007.sst", "")] "000007.sst").getD "" = "") ∧
    (CopyToS3 [("000007.sst", "")] ⟨[(("b", "k"), ⟨"", []⟩)], [], []⟩
        "000007.sst" "b" "k"
      = ⟨.ioError, [("000007.sst", "")], ⟨[(("b", "k"), ⟨"", []⟩)], [], []⟩, []⟩) ∧
    ((CopyFromS3 [("000007.sst", "")] ⟨[(("b", "k"), ⟨"", []⟩)], [], []⟩
        "b" "k" "/d/000042.sst").status = .ioError) := by
  have h := c3_zero_byte_refusal [("000007.sst", "")]
    ⟨[(("b", "k"), ⟨"", []⟩)], [], []⟩ "000007.sst" "b" "k" "/d/000042.sst"
    ⟨"", []⟩ (by decide) (by decide) rfl (by decide)
  exact ⟨by decide, h.1, h.2.1⟩

theorem copyToS3_ok (fs : LocalFS) (s3 : S3State) (fname b k c : String)
    (hfile : fs.fileAt fname = some c) (hc : c ≠ "")
    (hnf : (b, k) ∉ s3.faults) :
    CopyToS3 fs s3 fname b k = ⟨.ok, fs, s3.store b k ⟨c, []⟩, [.putReq b k]⟩ := by
  have hlen : ¬ (c.length = 0) := fun h => hc ((strLength_eq_zero c).mp h)
  unfold CopyToS3
  rw [hfile]
  simp [putObject, hnf, hlen]

theorem copyManifest_cases (w : S3WritableFile) (fs : LocalFS) (s3 : S3State)
    (stats : CloudStats) (now slot : Nat) (force : Bool) (c : String)
    (hman : w.isManifest = true) (hfile : fs.fileAt w.fname = some c)
    (hc : c ≠ "") (hnf : (w.bucket, w.key) ∉ s3.faults) :
    w.copyManifestToS3 fs s3 stats true now slot force =
      (if force || decide (w.manifestLastSyncTime + 1000 * w.periodicityMillis < now) then
        ⟨.ok, { w with manifestLastSyncTime := now }, fs,
          s3.store w.bucket w.key ⟨c, []⟩,
          ⟨stats.numberManifestWrites + 1, stats.manifestWritesTime ++ [slot / 1000]⟩,
          [.putReq w.bucket w.key]⟩
      else ⟨.ok, w, fs, s3, stats, []⟩) := by
  have hcopy := copyToS3_ok fs s3 w.fname w.bucket w.key c hfile hc hnf
  unfold S3WritableFile.copyManifestToS3
  rw [hman]
  by_cases hguard :
      (force || decide (w.manifestLastSyncTime + 1000 * w.periodicityMillis < now)) = true
  · rw [if_pos hguard]
    simp only [Bool.true_and, hguard, hcopy]
    rfl
  · rw [if_neg hguard]
    simp only [Bool.true_and]
    rw [if_neg (by simpa using hguard)]

/-- C2: for a manifest writable file with a statistics sink and a
non-empty local manifest, an upload (PUT) to the destination bucket is
issued iff `force` is set or
`manifest_last_sync_time + 1000 * manifest_durable_periodicity_millis < now`;
on a successful upload `manifest_last_sync_time` becomes `now`,
NUMBER_MANIFEST_WRITES is ticked by 1 and MANIFEST_WRITES_TIME records
the wrapper slot's last-op latency (divided by 1000); otherwise nothing
happens; consequently a `Sync` within the periodicity of the last upload
issues no PUT, a `Sync` after it does, and `Close` always forces a final
PUT. -/
theorem c2_manifest_cadence (w : S3WritableFile) (fs : LocalFS)
    (s3 : S3State) (stats : CloudStats) (now slot : Nat) (force keep : Bool)
    (c : String) (hman : w.isManifest = true) (hopen : w.tempFileOpen = true)
    (hfile : fs.fileAt w.fname = some c) (hc : c ≠ "")
    (hnf : (w.bucket, w.key) ∉ s3.faults) :
    ((CloudReq.putReq w.bucket w.key ∈
        (w.copyManifestToS3 fs s3 stats true now slot force).reqs) ↔
      (force = true ∨ w.manifestLastSyncTime + 1000 * w.periodicityMillis < now)) ∧
    ((force = true ∨ w.manifestLastSyncTime + 1000 * w.periodicityMillis < now) →
      (w.copyManifestToS3 fs s3 stats true now slot force).status = .ok ∧
      (w.copyManifestToS3 fs s3 stats true now slot force).wf.manifestLastSyncTime
        = now ∧
      (w.copyManifestToS3 fs s3 stats true now slot force).stats.numberManifestWrites
        = stats.numberManifestWrites + 1 ∧
      (w.copyManifestToS3 fs s3 stats true now slot force).stats.manifestWritesTime
        = stats.manifestWritesTime ++ [slot / 1000]) ∧
    (¬ (force = true ∨ w.manifestLastSyncTime + 1000 * w.periodicityMillis < now) →
      (w.copyManifestToS3 fs s3 stats true now slot force)
        = ⟨.ok, w, fs, s3, stats, []⟩) ∧
    (¬ (w.manifestLastSyncTime + 1000 * w.periodicityMillis < now) →
      (w.sync fs s3 stats true now slot).reqs = []) ∧
    (w.manifestLastSyncTime + 1000 * w.periodicityMillis < now →
      CloudReq.putReq w.bucket w.key ∈ (w.sync fs s3 stats true now slot).reqs) ∧
    (CloudReq.putReq w.bucket w.key ∈
      (w.close fs s3 stats true now slot keep).reqs) := by
  have hcases := copyManifest_cases w fs s3 stats now slot force c hman hfile hc hnf
  have hcasesF := copyManifest_cases w fs s3 stats now slot false c hman hfile hc hnf
  refine ⟨?_, ?_, ?_, ?_, ?_, ?_⟩
  · rw [hcases]
    by_cases hp : w.manifestLastSyncTime + 1000 * w.periodicityMillis < now <;>
      cases force <;> simp [hp]
  · intro hup
    rw [hcases]
    rcases hup with hup | hup <;> simp [hup]
  · intro hnup
    rw [hcases]
    push_neg at hnup
    simp [hnup.1, hnup.2]
  · intro hnp
    unfold S3WritableFile.sync
    rw [hopen, hman]
    simp only [Bool.not_true, Bool.false_eq_true, if_false, if_true]
    rw [hcasesF]
    simp [hnp]
  · intro hp
    unfold S3WritableFile.sync
    rw [hopen, hman]
    simp only [Bool.not_true, Bool.false_eq_true, if_false, if_true]
    rw [hcasesF]
    simp [hp]
  · unfold S3WritableFile.close
    rw [hopen]
    simp only [Bool.not_true, Bool.false_eq_true, if_false]
    rw [hfile]
    simp only [hman, if_true]
    rw [copyManifest_cases
      ⟨w.fname, w.bucket, w.key, true, w.periodicityMillis,
        w.manifestLastSyncTime, false, w.status⟩
      fs s3 stats now slot true c rfl hfile hc hnf]
    simp

/-- C2 witness: the theorem applied to a manifest file with periodicity
60000; at `now = 60000001` (past `0 + 1000·60000`) a sync-triggered
upload ticks NUMBER_MANIFEST_WRITES to 1; at `now = 1000000` (within the
periodicity) a `Sync` issues no request. -/
theorem c2_witness :
    ((S3WritableFile.copyManifestToS3
        ⟨"/db/MANIFEST-000001", "b", "db/MANIFEST", true, 60000, 0, true, .ok⟩
        [("/db/MANIFEST-000001", "x")] ⟨[], [], []⟩ ⟨0, []⟩ true
        60000001 2500 false).stats.numberManifestWrites = 1) ∧
    ((S3WritableFile.sync
        ⟨"/db/MANIFEST-000001", "b", "db/MANIFEST", true, 60000, 0, true, .ok⟩
        [("/db/MANIFEST-000001", "x")] ⟨[], [], []⟩ ⟨0, []⟩ true
        1000000 2500).reqs = []) := by
  have h := c2_manifest_cadence
    ⟨"/db/MANIFEST-000001", "b", "db/MANIFEST", true, 60000, 0, true, .ok⟩
    [("/db/MANIFEST-000001", "x")] ⟨[], [], []⟩ ⟨0, []⟩ 60000001 2500
    false false "x" rfl rfl (by decide) (by decide) (by decide)
  have h2 := c2_manifest_cadence
    ⟨"/db/MANIFEST-000001", "b", "db/MANIFEST", true, 60000, 0, true, .ok⟩
    [("/db/MANIFEST-000001", "x")] ⟨[], [], []⟩ ⟨0, []⟩ 1000000 2500
    false false "x" rfl rfl (by decide) (by decide) (by decide)
  refine ⟨?_, ?_⟩
  · have hw := (h.2.1 (Or.inr (by decide))).2.2.1
    simpa using hw
  · exact h2.2.2.2.1 (by decide)

/-- C9: `SaveDbid(d, p)` followed by `GetPathForDbid(d)` (against the
destination bucket) returns `p` from the `dirname` metadata of the object
at `.rockset/dbid/<d>`, and `DeleteDbid(d)` followed by
`GetPathForDbid(d)` returns NotFound. -/
theorem c9_dbid_roundtrip (e : AwsEnvModel) (s3 : S3State) (d p : String)
    (hnf : (GetBucket e.destBucket, dbidRegistry ++ d) ∉ s3.faults) :
    (getPathForDbid (saveDbid e s3 d p).2 e.destBucket d = (.ok, some p)) ∧
    (getPathForDbid (deleteDbid s3 e.destBucket d).2 e.destBucket d
      = (.notFound, none)) := by
  constructor
  · unfold saveDbid getPathForDbid putObject
    rw [if_neg hnf]
    have hfaults : (s3.store (GetBucket e.destBucket) (dbidRegistry ++ d)
        ⟨"", [("dirname", p)]⟩).faults = s3.faults := rfl
    simp [headObject, hfaults, hnf,
      lookup_store_self s3 (GetBucket e.destBucket) (dbidRegistry ++ d)
        ⟨"", [("dirname", p)]⟩, List.find?_cons]
  · unfold deleteDbid getPathForDbid deleteObject
    rw [if_neg hnf]
    cases hl : s3.lookup (GetBucket e.destBucket) (dbidRegistry ++ d) with
    | some o =>
      have hfaults : (s3.remove (GetBucket e.destBucket)
          (dbidRegistry ++ d)).faults = s3.faults := rfl
      simp [headObject, hfaults, hnf,
        lookup_remove_self s3 (GetBucket e.destBucket) (dbidRegistry ++ d)]
    | none => simp [headObject, hnf, hl]

/-- C9 witness: the spec's S5 registry scenario: save dbid `X7` mapped to
`/paths/x`, read it back; delete it, observe NotFound. -/
theorem c9_witness :
    (getPathForDbid (saveDbid
        ⟨"", "", "", "acme", "db1", "us-west-2",
          ⟨false, true, 60000, false⟩, false, true, false, .ok⟩
        ⟨[], [], []⟩ "X7" "/paths/x").2 "acme" "X7" = (.ok, some "/paths/x")) ∧
    (getPathForDbid (deleteDbid (⟨[], [], []⟩ : S3State) "acme" "X7").2
        "acme" "X7" = (.notFound, none)) :=
  c9_dbid_roundtrip
    ⟨"", "", "", "acme", "db1", "us-west-2",
      ⟨false, true, 60000, false⟩, false, true, false, .ok⟩
    ⟨[], [], []⟩ "X7" "/paths/x" (by decide)

/-- C5 counterexample: both buckets configured, pointing at the SAME
bucket and object path but with different regions: construction succeeds
(status OK), because the source's region check only fires when the two
buckets are unique; this refutes the claim as stated. -/
theorem c5_counterexample :
    (mkAwsEnv "acme" "db1" "us-west-2" "acme" "db1" "us-east-1"
      ⟨false, true, 60000, false⟩ .ok .ok).createBucketStatus = .ok := by decide

/-- C5 (amended): constructing with both buckets configured, the pair
unique (bucket prefix or object prefix differing after trimming), and
`src.region ≠ dest.region` yields a failed environment whose stored
`create_bucket_status_` is InvalidArgument; `AwsEnv::status` — the value
every subsequent operation's entry assertion reads — returns that same
status. -/
theorem c5_region_mismatch (sB sO sR dB dO dR : String)
    (opts : CloudEnvOpts) (cb kin : Status)
    (hsrc : trimStr sB ≠ "") (hdest : trimStr dB ≠ "")
    (huniq : trimStr sB ≠ trimStr dB ∨ trimStr sO ≠ trimStr dO)
    (hreg : trimStr sR ≠ trimStr dR) :
    (mkAwsEnv sB sO sR dB dO dR opts cb kin).createBucketStatus
      = .invalidArgument ∧
    (mkAwsEnv sB sO sR dB dO dR opts cb kin).statusOf = .invalidArgument := by
  unfold mkAwsEnv AwsEnvModel.statusOf
  rcases huniq with h | h <;> simp [hsrc, hdest, hreg, h]

/-- C5 witness: the amended theorem at the spec's S6 scenario (src and
dest unique, regions us-west-2 vs us-east-1). -/
theorem c5_witness :
    (mkAwsEnv "acme" "db1" "us-west-2" "acme" "db2" "us-east-1"
      ⟨false, true, 60000, false⟩ .ok .ok).createBucketStatus
      = .invalidArgument :=
  (c5_region_mismatch "acme" "db1" "us-west-2" "acme" "db2" "us-east-1"
    ⟨false, true, 60000, false⟩ .ok .ok (by decide) (by decide)
    (Or.inr (by decide)) (by decide)).1

/-- C4: over any snapshot of the deletion queue: (FIFO + delay) the i-th
performed deletion is of the i-th queue entry and executes no earlier
than its enqueue instant plus `file_deletion_delay`; (NotFound ignored)
without shutdown every entry is processed whatever each remote delete
returned; (immediate shutdown) if shutdown is signalled at or before the
worker's current instant, it exits at once without draining any entry. -/
theorem c4_deletion_worker (e : AwsEnvModel) (shutdown : Option Nat)
    (delay : Nat) (q : List DelEntry) (now : Nat) (s3 : S3State) :
    (∀ i t nm st,
      (runDeletionWorker e shutdown delay q now s3).1.get? i = some (t, nm, st) →
      ∃ entry, q.get? i = some entry ∧ nm = entry.name ∧ entry.enq + delay ≤ t) ∧
    (shutdown = none →
      (runDeletionWorker e shutdown delay q now s3).1.length = q.length) ∧
    (∀ sd, shutdown = some sd → sd ≤ now →
      (runDeletionWorker e shutdown delay q now s3).1 = []) := by
  induction q generalizing now s3 with
  | nil =>
    refine ⟨?_, ?_, ?_⟩
    · intro i t nm st h
      simp [runDeletionWorker] at h
    · intro _
      simp [runDeletionWorker]
    · intro sd _ _
      simp [runDeletionWorker]
  | cons a rest ih =>
    by_cases hsb : shutdownBefore shutdown (max now (a.enq + delay)) = true
    · refine ⟨?_, ?_, ?_⟩
      · intro i t nm st h
        simp only [runDeletionWorker] at h
        simp [hsb] at h
      · intro hnone
        rw [hnone] at hsb
        simp [shutdownBefore] at hsb
      · intro sd hsd hle
        simp only [runDeletionWorker]
        simp [hsb]
    · have hrec := ih (max now (a.enq + delay))
        (deleteObject s3 (GetBucket e.destBucket) (e.destname a.name)).2
      have heq : runDeletionWorker e shutdown delay (a :: rest) now s3 =
          ((max now (a.enq + delay), a.name,
              (deleteObject s3 (GetBucket e.destBucket) (e.destname a.name)).1) ::
            (runDeletionWorker e shutdown delay rest (max now (a.enq + delay))
              (deleteObject s3 (GetBucket e.destBucket) (e.destname a.name)).2).1,
           (runDeletionWorker e shutdown delay rest (max now (a.enq + delay))
              (deleteObject s3 (GetBucket e.destBucket) (e.destname a.name)).2).2) := by
        simp only [runDeletionWorker]
        rw [if_neg hsb]
      refine ⟨?_, ?_, ?_⟩
      · intro i t nm st h
        rw [heq] at h
        match i with
        | 0 =>
          simp only [List.get?_cons_zero, Option.some.injEq, Prod.mk.injEq] at h
          refine ⟨a, rfl, ?_, ?_⟩
          · rw [← h.2.1]
          · rw [← h.1]
            exact Nat.le_max_right _ _
        | Nat.succ j =>
          simp only [List.get?_cons_succ] at h
          obtain ⟨entry, hget, hname, hdel⟩ := hrec.1 j t nm st h
          exact ⟨entry, by simpa using hget, hname, hdel⟩
      · intro hnone
        rw [heq]
        simp only [List.length_cons]
        rw [hrec.2.1 hnone]
      · intro sd hsd hle
        simp only [runDeletionWorker]
        have hsb2 : shutdownBefore shutdown (max now (a.enq + delay)) = true := by
          rw [hsd]
          simp only [shutdownBefore, decide_eq_true_eq]
          omega
        simp [hsb2]

/-- C4 witness: two queued deletions against an empty store (both remote
deletes return NotFound): without shutdown both entries are still
processed, in order; with shutdown signalled at instant 0 the worker
exits immediately, draining nothing. -/
theorem c4_witness :
    ((runDeletionWorker
        ⟨"", "", "", "b", "p", "", ⟨false, true, 60000, false⟩,
          false, true, false, .ok⟩
        none 5 [⟨10, "000001.sst"⟩, ⟨12, "000002.sst"⟩] 0
        ⟨[], [], []⟩).1.length = 2) ∧
    ((runDeletionWorker
        ⟨"", "", "", "b", "p", "", ⟨false, true, 60000, false⟩,
          false, true, false, .ok⟩
        (some 0) 5 [⟨10, "000001.sst"⟩, ⟨12, "000002.sst"⟩] 0
        ⟨[], [], []⟩).1 = []) := by
  refine ⟨?_, ?_⟩
  · exact (c4_deletion_worker
      ⟨"", "", "", "b", "p", "", ⟨false, true, 60000, false⟩,
        false, true, false, .ok⟩
      none 5 [⟨10, "000001.sst"⟩, ⟨12, "000002.sst"⟩] 0
      ⟨[], [], []⟩).2.1 rfl
  · exact (c4_deletion_worker
      ⟨"", "", "", "b", "p", "", ⟨false, true, 60000, false⟩,
        false, true, false, .ok⟩
      (some 0) 5 [⟨10, "000001.sst"⟩, ⟨12, "000002.sst"⟩] 0
      ⟨[], [], []⟩).2.2 0 rfl (by decide)

/-! ## C7: DeleteDir's behavior when the listing fails -/

/-- C7 (evidence of the code bug): destination bucket `b`, object path
`p`, marker object present at `p/dir1`, and a fault injected on the List
call for prefix `p/dir1`.  `DeleteDir` does not return the listing error:
it falls through, deletes the marker from the bucket and returns OK
(after also deleting the local directory) — where the claim (and spec
§9 open question 3) requires the listing error to be returned with the
marker left in place. -/
theorem c7_deleteDir_listing_error_bug :
    ((deleteDir
        ⟨"", "", "", "b", "p", "", ⟨false, true, 60000, false⟩,
          false, true, false, .ok⟩
        [("/local/dir1", "")]
        ⟨[(("b", "p/dir1"), ⟨"", []⟩)], [], [("b", "p/dir1")]⟩
        "/local/dir1").1 = .ok) ∧
    ((deleteDir
        ⟨"", "", "", "b", "p", "", ⟨false, true, 60000, false⟩,
          false, true, false, .ok⟩
        [("/local/dir1", "")]
        ⟨[(("b", "p/dir1"), ⟨"", []⟩)], [], [("b", "p/dir1")]⟩
        "/local/dir1").2.2.lookup "b" "p/dir1" = none) := by decide

/-! ## C6: the rename policy -/

theorem routeLog_not_sst (f : String) (h : routeLog f = true) :
    routeSst f = false := by
  unfold routeLog at h
  rw [Bool.and_eq_true] at h
  unfold routeSst
  cases hval : IsSstFile f
  · rfl
  · rw [hval] at h
    simp at h

theorem routeManifest_not_sst (f : String) (h : routeManifest f = true) :
    routeSst f = false := by
  unfold routeManifest at h
  rw [Bool.and_eq_true] at h
  unfold routeSst
  cases hval : IsSstFile f
  · rfl
  · rw [hval] at h
    simp at h

theorem manifest_not_log (f : String) (h : IsManifestFile f = true) :
    IsLogFile f = false := by
  unfold IsManifestFile at h
  obtain ⟨t, ht⟩ := List.isPrefixOf_iff_prefix.mp h
  unfold IsLogFile numericWithExt
  rw [← ht]
  have hlen : ("MANIFEST".data ++ t).length - 4 = t.length + 4 := by
    have h8 : ("MANIFEST".data).length = 8 := rfl
    rw [List.length_append, h8]
    omega
  rw [hlen]
  have htake : ("MANIFEST".data ++ t).take (t.length + 4)
      = 'M' :: (("ANIFEST".data ++ t).take (t.length + 3)) := rfl
  rw [htake]
  simp [List.all_cons]

theorem routeIdentity_excl (f : String) (h : routeIdentity f = true) :
    routeSst f = false ∧ routeLog f = false ∧ routeManifest f = false := by
  unfold routeIdentity at h
  rw [Bool.and_eq_true] at h
  obtain ⟨hnot, hb⟩ := h
  have hsst : IsSstFile f = false := by
    cases hval : IsSstFile f
    · rfl
    · rw [hval] at hnot
      simp at hnot
  have hbn : basenameData f.data = "IDENTITY".data := by
    unfold IsIdentityFile at hb
    exact of_decide_eq_true hb
  refine ⟨hsst, ?_, ?_⟩
  · unfold routeLog IsLogFile
    rw [hsst, hbn]
    decide
  · unfold routeManifest IsManifestFile
    rw [hsst, hbn]
    decide

/-- C6 counterexample: an IDENTITY rename with a destination bucket whose
object prefix is EMPTY: the identity file is uploaded and the local
rename succeeds, but the dbid registry is NOT updated (the registry key
for the file's dbid is absent afterwards), refuting the claim's
"(updating the dbid registry)". -/
theorem c6_counterexample :
    ((renameFile
        ⟨"", "", "", "b", "", "", ⟨false, true, 60000, false⟩,
          false, true, false, .ok⟩
        [("/db/tmpid", "uuid1")] ⟨[], [], []⟩
        "/db/tmpid" "/db/IDENTITY").1 = .ok) ∧
    ((renameFile
        ⟨"", "", "", "b", "", "", ⟨false, true, 60000, false⟩,
          false, true, false, .ok⟩
        [("/db/tmpid", "uuid1")] ⟨[], [], []⟩
        "/db/tmpid" "/db/IDENTITY").2.1.fileAt "/db/IDENTITY" = some "uuid1") ∧
    ((renameFile
        ⟨"", "", "", "b", "", "", ⟨false, true, 60000, false⟩,
          false, true, false, .ok⟩
        [("/db/tmpid", "uuid1")] ⟨[], [], []⟩
        "/db/tmpid" "/db/IDENTITY").2.2.lookup "b" "/IDENTITY"
      = some ⟨"uuid1", []⟩) ∧
    ((renameFile
        ⟨"", "", "", "b", "", "", ⟨false, true, 60000, false⟩,
          false, true, false, .ok⟩
        [("/db/tmpid", "uuid1")] ⟨[], [], []⟩
        "/db/tmpid" "/db/IDENTITY").2.2.lookup "b"
        (dbidRegistry ++ "uuid1") = none) := by decide

/-- C6 (amended): `RenameFile` returns NotSupported for every SST, LOG
and MANIFEST target, touching nothing; names that are not
SST/LOG/MANIFEST/IDENTITY — and IDENTITY without a destination bucket —
are renamed purely locally; an IDENTITY target with a destination bucket
first uploads the identity file to the destination bucket, updates the
dbid registry WHEN the destination object prefix is nonempty, and only
if all of that succeeded renames the local file; if reading the local
identity fails nothing is renamed. -/
theorem c6_rename_policy (e : AwsEnvModel) (fs : LocalFS) (s3 : S3State)
    (src target c : String) :
    ((routeSst target = true ∨ routeLog target = true ∨
        routeManifest target = true) →
      renameFile e fs s3 src target = (.notSupported, fs, s3)) ∧
    (routeSst target = false → routeLog target = false →
      routeManifest target = false →
      (routeIdentity target = false ∨ e.hasDestBucket = false) →
      renameFile e fs s3 src target =
        ((fs.renameLocal src target).1, (fs.renameLocal src target).2, s3)) ∧
    (routeIdentity target = true → e.hasDestBucket = true →
      fs.fileAt src = some c → c ≠ "" →
      (GetBucket e.destBucket, e.destname target) ∉ s3.faults →
      e.destObjectPath ≠ "" →
      (GetBucket e.destBucket, dbidRegistry ++ trimStr c) ∉ s3.faults →
      renameFile e fs s3 src target =
        ((fs.renameLocal src target).1, (fs.renameLocal src target).2,
          (s3.store (GetBucket e.destBucket) (e.destname target)
            ⟨c, []⟩).store (GetBucket e.destBucket)
            (dbidRegistry ++ trimStr c)
            ⟨"", [("dirname", e.destObjectPath)]⟩)) ∧
    (routeIdentity target = true → e.hasDestBucket = true →
      fs.fileAt src = none →
      (renameFile e fs s3 src target).1 = .ioError ∧
      (renameFile e fs s3 src target).2.1 = fs) := by
  refine ⟨?_, ?_, ?_, ?_⟩
  · rintro (h | h | h)
    · simp [renameFile, h]
    · have hs := routeLog_not_sst target h
      simp [renameFile, h, hs]
    · have hs := routeManifest_not_sst target h
      have hml : IsLogFile target = false := by
        apply manifest_not_log
        unfold routeManifest at h
        exact (Bool.and_eq_true _ _ |>.mp h).2
      have hl : routeLog target = false := by
        unfold routeLog
        rw [hml]
        simp
      simp [renameFile, h, hs, hl]
  · intro hs hl hm hcase
    rcases hcase with h | h <;> simp [renameFile, hs, hl, hm, h]
  · intro hid hdest hfile hc hnfid hpfx hnfreg
    obtain ⟨hs, hl, hm⟩ := routeIdentity_excl target hid
    have hcopy := copyToS3_ok fs s3 src (GetBucket e.destBucket)
      (e.destname target) c hfile hc hnfid
    have hsave : saveIdentityToS3 e fs s3 src (e.destname target) =
        (.ok, (s3.store (GetBucket e.destBucket) (e.destname target)
          ⟨c, []⟩).store (GetBucket e.destBucket)
          (dbidRegistry ++ trimStr c)
          ⟨"", [("dirname", e.destObjectPath)]⟩) := by
      unfold saveIdentityToS3
      rw [hfile]
      simp only [hcopy]
      have hfaults : (s3.store (GetBucket e.destBucket) (e.destname target)
          ⟨c, []⟩).faults = s3.faults := rfl
      simp [hpfx, saveDbid, putObject, hfaults, hnfreg]
    simp [renameFile, hs, hl, hm, hid, hdest, hsave]
  · intro hid hdest hfile
    obtain ⟨hs, hl, hm⟩ := routeIdentity_excl target hid
    have hsave : saveIdentityToS3 e fs s3 src (e.destname target)
        = (.ioError, s3) := by
      unfold saveIdentityToS3
      rw [hfile]
    simp [renameFile, hs, hl, hm, hid, hdest, hsave]

/-- C6 witness: the amended theorem applied to a concrete IDENTITY rename
with a nonempty destination object prefix, plus a NotSupported
application at an SST target. -/
theorem c6_witness :
    (renameFile
        ⟨"", "", "", "b", "db1", "", ⟨false, true, 60000, false⟩,
          false, true, false, .ok⟩
        [("/db/tmpid", "uuid1")] ⟨[], [], []⟩ "/db/tmpid" "/db/IDENTITY" =
      ((LocalFS.renameLocal [("/db/tmpid", "uuid1")]
          "/db/tmpid" "/db/IDENTITY").1,
        (LocalFS.renameLocal [("/db/tmpid", "uuid1")]
          "/db/tmpid" "/db/IDENTITY").2,
        ((⟨[], [], []⟩ : S3State).store "b" "db1/IDENTITY"
          ⟨"uuid1", []⟩).store "b" (dbidRegistry ++ "uuid1")
          ⟨"", [("dirname", "db1")]⟩)) ∧
    (renameFile
        ⟨"", "", "", "b", "db1", "", ⟨false, true, 60000, false⟩,
          false, true, false, .ok⟩
        [("/db/tmpid", "uuid1")] ⟨[], [], []⟩ "/db/tmpid" "/db/000123.sst" =
      (.notSupported, [("/db/tmpid", "uuid1")], ⟨[], [], []⟩)) := by
  have h := c6_rename_policy
    ⟨"", "", "", "b", "db1", "", ⟨false, true, 60000, false⟩,
      false, true, false, .ok⟩
    [("/db/tmpid", "uuid1")] ⟨[], [], []⟩ "/db/tmpid" "/db/IDENTITY" "uuid1"
  have h2 := c6_rename_policy
    ⟨"", "", "", "b", "db1", "", ⟨false, true, 60000, false⟩,
      false, true, false, .ok⟩
    [("/db/tmpid", "uuid1")] ⟨[], [], []⟩ "/db/tmpid" "/db/000123.sst" "uuid1"
  refine ⟨?_, ?_⟩
  · have hr := h.2.2.1 (by decide) rfl (by decide) (by decide) (by decide)
      (by decide) (by decide)
    rw [hr]
    decide
  · exact h2.1 (Or.inl (by decide))

/-! ## C1: strict local → dest → src fallback -/

theorem copyFromS3_absent (fs : LocalFS) (s3 : S3State) (b key dst : String)
    (hl : s3.lookup b key = none) :
    CopyFromS3 fs s3 b key dst = ⟨.ioError, fs, s3, [.getStreamReq b key]⟩ := by
  unfold CopyFromS3
  by_cases hf : (b, key) ∈ s3.faults
  · rw [if_pos hf]
  · rw [if_neg hf, hl]

theorem copyFromS3_present (fs : LocalFS) (s3 : S3State) (b key dst : String)
    (o : S3Object) (hl : s3.lookup b key = some o)
    (hnf : (b, key) ∉ s3.faults) :
    CopyFromS3 fs s3 b key dst =
      (if o.content.length = 0 then
        ⟨.ioError, fs.writeFile (dst ++ ".tmp") o.content, s3,
          [.getStreamReq b key]⟩
      else
        ⟨.ok, ((fs.writeFile (dst ++ ".tmp") o.content).removeFile
            (dst ++ ".tmp")).writeFile dst o.content, s3,
          [.getStreamReq b key]⟩) := by
  unfold CopyFromS3
  rw [if_neg hnf, hl]
  by_cases hz : o.content.length = 0
  · simp [hz]
  · simp [hz, LocalFS.renameLocal, fileAt_writeFile_self]

/-- C1: for SST (or MANIFEST or IDENTITY) names the resolution order is
strictly local, then destination bucket, then source bucket: with the
name absent locally and from the destination bucket, (A) if the object
exists in the source bucket both `NewSequentialFile` and
`NewRandomAccessFile` succeed (whatever `keep_local_sst_files` and
`has_dest_bucket` are), and (B) if it is absent from the source bucket
too, both return NotFound. -/
theorem c1_strict_fallback (e : AwsEnvModel) (fs : LocalFS) (s3 : S3State)
    (fname : String) (kin : Status)
    (hclass : (routeSst fname || routeManifest fname ||
      routeIdentity fname) = true)
    (hlocal : fs.fileAt fname = none)
    (hdest : s3.lookup (GetBucket e.destBucket) (e.destname fname) = none)
    (hdf : (GetBucket e.destBucket, e.destname fname) ∉ s3.faults)
    (hsf : (GetBucket e.srcBucket, e.srcname fname) ∉ s3.faults) :
    (∀ o, e.hasSrcBucket = true →
      s3.lookup (GetBucket e.srcBucket) (e.srcname fname) = some o →
      newSequentialFile e fs s3 fname kin = .ok ∧
      (newRandomAccessFile e fs s3 fname kin).1 = .ok) ∧
    (s3.lookup (GetBucket e.srcBucket) (e.srcname fname) = none →
      newSequentialFile e fs s3 fname kin = .notFound ∧
      (newRandomAccessFile e fs s3 fname kin).1 = .notFound) := by
  have hOpenDest : (openS3ReadableFile s3 (GetBucket e.destBucket)
      (e.destname fname)).status = .notFound := by
    simp [openS3ReadableFile, headObject, hdf, hdest]
  have hCopyDest : ∀ fs' : LocalFS,
      CopyFromS3 fs' s3 (GetBucket e.destBucket) (e.destname fname) fname =
        ⟨.ioError, fs', s3, [.getStreamReq (GetBucket e.destBucket)
          (e.destname fname)]⟩ :=
    fun fs' => copyFromS3_absent fs' s3 _ _ _ hdest
  constructor
  · intro o hsrc hsobj
    have hOpenSrc : (openS3ReadableFile s3 (GetBucket e.srcBucket)
        (e.srcname fname)).status = .ok := by
      simp [openS3ReadableFile, headObject, hsf, hsobj]
    have hCopySrc : ∀ fs' : LocalFS,
        CopyFromS3 fs' s3 (GetBucket e.srcBucket) (e.srcname fname) fname =
          (if o.content.length = 0 then
            ⟨.ioError, fs'.writeFile (fname ++ ".tmp") o.content, s3,
              [.getStreamReq (GetBucket e.srcBucket) (e.srcname fname)]⟩
          else
            ⟨.ok, ((fs'.writeFile (fname ++ ".tmp") o.content).removeFile
                (fname ++ ".tmp")).writeFile fname o.content, s3,
              [.getStreamReq (GetBucket e.srcBucket) (e.srcname fname)]⟩) :=
      fun fs' => copyFromS3_present fs' s3 _ _ _ o hsobj hsf
    constructor
    · unfold newSequentialFile
      rw [if_pos hclass, hlocal]
      cases hd : e.hasDestBucket <;> simp [hsrc, hOpenDest, hOpenSrc]
    · unfold newRandomAccessFile
      rw [if_pos hclass, hlocal]
      cases hk : e.opts.keepLocalSstFiles
      · cases hd : e.hasDestBucket <;> simp [hsrc, hOpenDest, hOpenSrc]
      · by_cases hz : o.content.length = 0
        · cases hd : e.hasDestBucket <;>
            simp [hsrc, hCopyDest, hCopySrc, hz, hOpenDest, hOpenSrc]
        · have hreopen : ∀ fs' : LocalFS,
              (((fs'.writeFile (fname ++ ".tmp") o.content).removeFile
                (fname ++ ".tmp")).writeFile fname o.content).fileAt fname
                = some o.content :=
            fun fs' => fileAt_writeFile_self _ fname o.content
          cases hd : e.hasDestBucket <;>
            simp [hsrc, hCopyDest, hCopySrc, hz, hOpenDest, hOpenSrc, hreopen]
  · intro hsnone
    have hOpenSrc : (openS3ReadableFile s3 (GetBucket e.srcBucket)
        (e.srcname fname)).status = .notFound := by
      simp [openS3ReadableFile, headObject, hsf, hsnone]
    have hCopySrc : ∀ fs' : LocalFS,
        CopyFromS3 fs' s3 (GetBucket e.srcBucket) (e.srcname fname) fname =
          ⟨.ioError, fs', s3, [.getStreamReq (GetBucket e.srcBucket)
            (e.srcname fname)]⟩ :=
      fun fs' => copyFromS3_absent fs' s3 _ _ _ hsnone
    constructor
    · unfold newSequentialFile
      rw [if_pos hclass, hlocal]
      cases hd : e.hasDestBucket <;> cases hs : e.hasSrcBucket <;>
        simp [hOpenDest, hOpenSrc]
    · unfold newRandomAccessFile
      rw [if_pos hclass, hlocal]
      cases hk : e.opts.keepLocalSstFiles <;>
        cases hd : e.hasDestBucket <;> cases hs : e.hasSrcBucket <;>
          simp [hOpenDest, hOpenSrc, hCopyDest, hCopySrc]

/-- C1 witness: the spec's S1-style scenario: an SST present only in the
source bucket opens via the fallback; an SST absent everywhere is
NotFound. -/
theorem c1_witness :
    (newSequentialFile
        ⟨"acme", "db1", "us-west-2", "", "", "",
          ⟨true, true, 60000, false⟩, true, false, false, .ok⟩
        [] ⟨[(("acme", "db1/000123.sst"), ⟨"abcd", []⟩)], [], []⟩
        "/local/000123.sst" .timedOut = .ok) ∧
    ((newRandomAccessFile
        ⟨"acme", "db1", "us-west-2", "", "", "",
          ⟨true, true, 60000, false⟩, true, false, false, .ok⟩
        [] ⟨[(("acme", "db1/000123.sst"), ⟨"abcd", []⟩)], [], []⟩
        "/local/000123.sst" .timedOut).1 = .ok) ∧
    (newSequentialFile
        ⟨"acme", "db1", "us-west-2", "", "", "",
          ⟨true, true, 60000, false⟩, true, false, false, .ok⟩
        [] ⟨[], [], []⟩ "/local/000123.sst" .timedOut = .notFound) ∧
    ((newRandomAccessFile
        ⟨"acme", "db1", "us-west-2", "", "", "",
          ⟨true, true, 60000, false⟩, true, false, false, .ok⟩
        [] ⟨[], [], []⟩ "/local/000123.sst" .timedOut).1 = .notFound) := by
  have hA := c1_strict_fallback
    ⟨"acme", "db1", "us-west-2", "", "", "",
      ⟨true, true, 60000, false⟩, true, false, false, .ok⟩
    [] ⟨[(("acme", "db1/000123.sst"), ⟨"abcd", []⟩)], [], []⟩
    "/local/000123.sst" .timedOut (by decide) (by decide) (by decide)
    (by decide) (by decide)
  have hB := c1_strict_fallback
    ⟨"acme", "db1", "us-west-2", "", "", "",
      ⟨true, true, 60000, false⟩, true, false, false, .ok⟩
    [] ⟨[], [], []⟩ "/local/000123.sst" .timedOut (by decide) (by decide)
    (by decide) (by decide) (by decide)
  obtain ⟨hA1, hA2⟩ := hA.1 ⟨"abcd", []⟩ rfl (by decide)
  obtain ⟨hB1, hB2⟩ := hB.2 (by decide)
  exact ⟨hA1, hA2, hB1, hB2⟩

end RocksCloud
